import Mathlib

/-!
Verification development for the Basketball-AI backend (Django/DRF/Celery).

The definitions below are a shallow embedding of the parts of the repository
that the claims are about:

* `core/tasks.py` — the Celery video-processing pipeline
  (`process_video_task`, `detect_players_task`, `analyze_ball_and_score_task`,
  `detect_actions_with_mmaction`, `calculate_stats_task`,
  `auto_generate_highlights_task`, `create_highlight_video`);
* `stats/models.py` — `Stats.save`, `Stats.calculate_points`,
  `Stats.calculate_shooting_percentages`;
* `stats/serializers.py` — `StatsCreateUpdateSerializer.validate`;
* `actions/serializers.py` — `ActionCreateSerializer.validate`;
* the `on_delete=CASCADE` foreign keys of `players/actions/highlights/stats`
  models.

Conventions of the embedding:

* Python floats are modelled as rationals (`ℚ`); Django `IntegerField`s as `ℤ`.
* Each Celery task body calls ML / video libraries whose outcome we cannot
  predict, so a task takes an extra argument `exc : Option String`:
  `none` means the body runs to completion (success path), `some e` means the
  body raised an exception with message `e`, transferring control to the
  task's `except Exception` handler.  The database row the task operates on
  is passed in and the updated row is returned; we model runs in which the
  row exists (the `Video.DoesNotExist` branch of `process_video_task` is
  unreachable then and is omitted).
* Task side effects that matter to the claims are the row updates, the list
  of tasks enqueued via `.delay(...)`, and the `"status"` entry of the
  returned dict.
-/

/-- The seven pipeline tasks of `core/tasks.py`. -/
inductive PTask
  | process_video
  | detect_players
  | analyze_ball_and_score
  | detect_actions
  | calculate_stats
  | auto_generate_highlights
  | create_highlight
  deriving DecidableEq, Repr

/-- The columns of the `Video` row that the pipeline tasks read or write
(`videos/models.py`).  `status` defaults to `"uploaded"`. -/
structure VideoRow where
  status : String
  error_message : Option String
  deriving DecidableEq, Repr

/-- `Video.status` default value (`videos/models.py`, `default='uploaded'`). -/
def Video.default_status : String := "uploaded"

/-- Row state and observable effects produced by one task invocation:
the updated `Video` row, the tasks enqueued with `.delay`, and the
`"status"` value of the returned dict. -/
structure TaskResult where
  video : VideoRow
  enqueued : List PTask
  ret_status : String
  deriving DecidableEq, Repr

/-- `process_video_task` (`core/tasks.py` lines 28–58): on success sets
`status='processing'` and enqueues `detect_players_task`; its
`except Exception` branch sets `status='error'`, writes `error_message`
and returns an error dict. -/
def process_video_task (exc : Option String) (v : VideoRow) : TaskResult :=
  match exc with
  | none =>
      { video := { v with status := "processing" }
        enqueued := [PTask.detect_players]
        ret_status := "started" }
  | some e =>
      { video := { v with status := "error", error_message := some e }
        enqueued := []
        ret_status := "error" }

/-- `detect_players_task` (`core/tasks.py` lines 61–155): on success sets
`status='players_detected'` and enqueues `analyze_ball_and_score_task`;
on exception sets `status='error'` and
`error_message = "Player detection failed: " ++ e`. -/
def detect_players_task (exc : Option String) (v : VideoRow) : TaskResult :=
  match exc with
  | none =>
      { video := { v with status := "players_detected" }
        enqueued := [PTask.analyze_ball_and_score]
        ret_status := "completed" }
  | some e =>
      { video := { v with status := "error"
                          error_message := some ("Player detection failed: " ++ e) }
        enqueued := []
        ret_status := "error" }

/-- `analyze_ball_and_score_task` (`core/tasks.py` lines 158–189): on success
sets `status='ball_analyzed'` and enqueues `detect_actions_with_mmaction`;
on exception sets `status='error'` and
`error_message = "Ball analysis failed: " ++ e`. -/
def analyze_ball_and_score_task (exc : Option String) (v : VideoRow) : TaskResult :=
  match exc with
  | none =>
      { video := { v with status := "ball_analyzed" }
        enqueued := [PTask.detect_actions]
        ret_status := "completed" }
  | some e =>
      { video := { v with status := "error"
                          error_message := some ("Ball analysis failed: " ++ e) }
        enqueued := []
        ret_status := "error" }

/-- `detect_actions_with_mmaction` (`core/tasks.py` lines 192–291): on success
sets `status='actions_done'` and enqueues `calculate_stats_task`;
on exception sets `status='error'` and
`error_message = "Action detection failed: " ++ e`. -/
def detect_actions_with_mmaction (exc : Option String) (v : VideoRow) : TaskResult :=
  match exc with
  | none =>
      { video := { v with status := "actions_done" }
        enqueued := [PTask.calculate_stats]
        ret_status := "completed" }
  | some e =>
      { video := { v with status := "error"
                          error_message := some ("Action detection failed: " ++ e) }
        enqueued := []
        ret_status := "error" }

/-- `calculate_stats_task` (`core/tasks.py` lines 294–367): on success sets
`status='highlights_created'` and enqueues `auto_generate_highlights_task`;
on exception sets `status='error'` and
`error_message = "Stats calculation failed: " ++ e`. -/
def calculate_stats_task (exc : Option String) (v : VideoRow) : TaskResult :=
  match exc with
  | none =>
      { video := { v with status := "highlights_created" }
        enqueued := [PTask.auto_generate_highlights]
        ret_status := "completed" }
  | some e =>
      { video := { v with status := "error"
                          error_message := some ("Stats calculation failed: " ++ e) }
        enqueued := []
        ret_status := "error" }

/-- `auto_generate_highlights_task` (`core/tasks.py` lines 370–409): on
success creates the three highlight rows of `highlight_types`, enqueues
`create_highlight_video` once per created highlight, and sets
`status='done'`.  Its `except Exception` branch (lines 407–409) only logs
and returns an error dict: it does not touch the `Video` row at all. -/
def auto_generate_highlights_task (exc : Option String) (v : VideoRow) : TaskResult :=
  match exc with
  | none =>
      { video := { v with status := "done" }
        enqueued := [PTask.create_highlight, PTask.create_highlight,
                     PTask.create_highlight]
        ret_status := "completed" }
  | some _ =>
      { video := v
        enqueued := []
        ret_status := "error" }

/-- The `highlight_types` table of `auto_generate_highlights_task`
(`core/tasks.py` lines 381–385): `(highlight_type, min_confidence,
max_duration)`. -/
def highlight_types : List (String × ℚ × ℚ) :=
  [("best_plays", 4/5, 60), ("shooting_highlights", 7/10, 45),
   ("defensive_highlights", 7/10, 30)]

/-- Success-path step of the pipeline: which task runs and what it does to
the video row when its body does not raise. -/
def runVideoTask (t : PTask) (exc : Option String) (v : VideoRow) : TaskResult :=
  match t with
  | .process_video => process_video_task exc v
  | .detect_players => detect_players_task exc v
  | .analyze_ball_and_score => analyze_ball_and_score_task exc v
  | .detect_actions => detect_actions_with_mmaction exc v
  | .calculate_stats => calculate_stats_task exc v
  | .auto_generate_highlights => auto_generate_highlights_task exc v
  | .create_highlight =>
      -- `create_highlight_video` operates on a `Highlight` row and never
      -- writes the `Video` row; it enqueues no further task.
      { video := v, enqueued := [], ret_status := "completed" }

/-- Statuses observed on the `Video` row after each task of a list completes
successfully, starting from row `v`. -/
def statusTrace (v : VideoRow) : List PTask → List String
  | [] => []
  | t :: ts =>
      let r := runVideoTask t none v
      r.video.status :: statusTrace r.video ts

/-- The linear task chain, in hand-off order. -/
def pipelineChain : List PTask :=
  [PTask.process_video, PTask.detect_players, PTask.analyze_ball_and_score,
   PTask.detect_actions, PTask.calculate_stats, PTask.auto_generate_highlights]

/-! ### Stats model (`stats/models.py`) -/

/-- The numeric columns of a `Stats` row (`stats/models.py`).  Django
`IntegerField`s are `ℤ`, `FloatField`s are `ℚ`. -/
structure StatsRow where
  fga_2pt : ℤ
  fgm_2pt : ℤ
  fga_3pt : ℤ
  fgm_3pt : ℤ
  fta : ℤ
  ftm : ℤ
  assists : ℤ
  rebounds : ℤ
  offensive_rebounds : ℤ
  defensive_rebounds : ℤ
  steals : ℤ
  blocks : ℤ
  turnovers : ℤ
  fouls : ℤ
  points : ℤ
  minutes_played : ℚ
  plus_minus : ℤ
  deriving DecidableEq, Repr

/-- `Stats.calculate_points` (`stats/models.py` lines 62–65):
`points = fgm_2pt * 2 + fgm_3pt * 3 + ftm`. -/
def StatsRow.calculate_points (s : StatsRow) : ℤ :=
  s.fgm_2pt * 2 + s.fgm_3pt * 3 + s.ftm

/-- `Stats.save` (`stats/models.py` lines 67–72): before every write it
recomputes `points` via `calculate_points` and
`rebounds := offensive_rebounds + defensive_rebounds`, then delegates to
the ORM. -/
def StatsRow.save (s : StatsRow) : StatsRow :=
  { s with points := s.calculate_points
           rebounds := s.offensive_rebounds + s.defensive_rebounds }

/-- Python's `round(x, 1)` idealised over `ℚ`: rounding to one decimal place
(the float round-half-to-even of CPython is modelled as exact decimal
rounding; none of the claims depend on the tie-breaking rule). -/
def round1 (q : ℚ) : ℚ := (round (q * 10) : ℤ) / 10

/-- The dict returned by `Stats.calculate_shooting_percentages`: its four
keys. -/
structure ShootingPercentages where
  fg_pct : ℚ
  fg2_pct : ℚ
  fg3_pct : ℚ
  ft_pct : ℚ
  deriving DecidableEq, Repr

/-- `Stats.calculate_shooting_percentages` (`stats/models.py` lines 45–60):
each ratio is guarded by `attempts > 0`, returning `0` otherwise, and the
result is rounded to one decimal. -/
def StatsRow.calculate_shooting_percentages (s : StatsRow) : ShootingPercentages :=
  let fg2_pct : ℚ := if s.fga_2pt > 0 then (s.fgm_2pt : ℚ) / (s.fga_2pt : ℚ) * 100 else 0
  let fg3_pct : ℚ := if s.fga_3pt > 0 then (s.fgm_3pt : ℚ) / (s.fga_3pt : ℚ) * 100 else 0
  let ft_pct : ℚ := if s.fta > 0 then (s.ftm : ℚ) / (s.fta : ℚ) * 100 else 0
  let total_fga := s.fga_2pt + s.fga_3pt
  let total_fgm := s.fgm_2pt + s.fgm_3pt
  let fg_pct : ℚ := if total_fga > 0 then (total_fgm : ℚ) / (total_fga : ℚ) * 100 else 0
  { fg_pct := round1 fg_pct
    fg2_pct := round1 fg2_pct
    fg3_pct := round1 fg3_pct
    ft_pct := round1 ft_pct }

/-! ### Serializer validation (`stats/serializers.py`, `actions/serializers.py`)

DRF `validate` either returns the data unchanged or raises
`ValidationError`; we model it as `Except String`. -/

/-- Input dict for `StatsCreateUpdateSerializer`: the shooting count fields
the `validate` method reads with `data.get(key, 0)`; `none` models an
absent key. -/
structure StatsInput where
  fga_2pt : Option ℤ
  fgm_2pt : Option ℤ
  fga_3pt : Option ℤ
  fgm_3pt : Option ℤ
  fta : Option ℤ
  ftm : Option ℤ
  deriving DecidableEq, Repr

/-- `StatsCreateUpdateSerializer.validate` (`stats/serializers.py` lines
56–68): raises if made shots exceed attempts for any of the three shot
kinds (an absent field reads as 0), otherwise returns the data unchanged. -/
def StatsCreateUpdateSerializer.validate (d : StatsInput) : Except String StatsInput :=
  if d.fgm_2pt.getD 0 > d.fga_2pt.getD 0 then
    .error "2-point made cannot exceed attempts"
  else if d.fgm_3pt.getD 0 > d.fga_3pt.getD 0 then
    .error "3-point made cannot exceed attempts"
  else if d.ftm.getD 0 > d.fta.getD 0 then
    .error "Free throws made cannot exceed attempts"
  else
    .ok d

/-- `ActionCreateSerializer.validate` (`actions/serializers.py` lines 45–53),
restricted to the two time fields it inspects (`start_time`, `end_time`,
Python floats modelled as `ℚ`): raises when `start_time >= end_time`,
then when the duration exceeds 30 seconds, otherwise accepts. -/
def ActionCreateSerializer.validate (start_time end_time : ℚ) :
    Except String (ℚ × ℚ) :=
  if start_time ≥ end_time then
    .error "End time must be after start time"
  else if end_time - start_time > 30 then
    .error "Action duration cannot exceed 30 seconds"
  else
    .ok (start_time, end_time)

/-! ### Cascade deletion (C7)

The foreign keys declared with `on_delete=models.CASCADE`:
`Player.video` (`players/models.py` line 19), `Action.video` and
`Action.player` (`actions/models.py` lines 48–49), `Highlight.video` and
`Highlight.player` (`highlights/models.py` lines 19–20), `Stats.video` and
`Stats.player` (`stats/models.py` lines 8–9).  Django's collector deletes,
transitively, every row reachable through a CASCADE edge from the deleted
video. -/

/-- A `Player` row, reduced to its primary key and `video` foreign key. -/
structure PlayerRec where
  id : ℕ
  video : ℕ
  deriving DecidableEq, Repr

/-- An `Action` row: primary key, `video` FK and nullable `player` FK. -/
structure ActionRec where
  id : ℕ
  video : ℕ
  player : Option ℕ
  deriving DecidableEq, Repr

/-- A `Highlight` row: primary key, `video` FK and nullable `player` FK. -/
structure HighlightRec where
  id : ℕ
  video : ℕ
  player : Option ℕ
  deriving DecidableEq, Repr

/-- A `Stats` row: primary key, `video` FK and (non-null) `player` FK. -/
structure StatsRec where
  id : ℕ
  video : ℕ
  player : ℕ
  deriving DecidableEq, Repr

/-- The relational state relevant to deleting a video. -/
structure Database where
  videos : List ℕ
  players : List PlayerRec
  actions : List ActionRec
  highlights : List HighlightRec
  stats : List StatsRec
  deriving DecidableEq, Repr

/-- Referential integrity: every foreign key points at an existing row. -/
def Database.integral (db : Database) : Prop :=
  (∀ p ∈ db.players, p.video ∈ db.videos) ∧
  (∀ a ∈ db.actions, a.video ∈ db.videos ∧
      ∀ pid ∈ a.player, ∃ p ∈ db.players, p.id = pid) ∧
  (∀ h ∈ db.highlights, h.video ∈ db.videos ∧
      ∀ pid ∈ h.player, ∃ p ∈ db.players, p.id = pid) ∧
  (∀ s ∈ db.stats, s.video ∈ db.videos ∧ ∃ p ∈ db.players, p.id = s.player)

/-- Django CASCADE deletion of video `v`: the video row goes, every `Player`
of `v` goes, and every `Action`/`Highlight`/`Stats` row goes if its
`video` FK is `v` or its `player` FK is one of the deleted players. -/
def Database.deleteVideo (db : Database) (v : ℕ) : Database :=
  let deadPlayers := (db.players.filter (fun p => p.video = v)).map PlayerRec.id
  { videos := db.videos.filter (fun w => w ≠ v)
    players := db.players.filter (fun p => p.video ≠ v)
    actions := db.actions.filter
      (fun a => a.video ≠ v ∧ ∀ pid ∈ a.player, pid ∉ deadPlayers)
    highlights := db.highlights.filter
      (fun h => h.video ≠ v ∧ ∀ pid ∈ h.player, pid ∉ deadPlayers)
    stats := db.stats.filter
      (fun s => s.video ≠ v ∧ s.player ∉ deadPlayers) }

/-! ### `create_highlight_video` (`core/tasks.py` lines 412–507) -/

/-- The columns of an `Action` row read by `create_highlight_video`. -/
structure ActionRow where
  type : String
  player : Option ℕ
  start_time : ℚ
  end_time : ℚ
  confidence : ℚ
  deriving DecidableEq, Repr

/-- The `Highlight` row as `create_highlight_video` reads and writes it
(`highlights/models.py`): generation settings plus the processing fields. -/
structure HighlightRow where
  highlight_type : String
  player : Option ℕ
  min_confidence : ℚ
  max_duration : ℚ
  file_written : Bool
  duration : Option ℚ
  is_processing : Bool
  processing_error : Option String
  deriving DecidableEq, Repr

/-- Action-type filter of `create_highlight_video` for
`shooting_highlights` (`core/tasks.py` lines 430–433). -/
def shooting_types : List String :=
  ["shot_2pt", "shot_3pt", "dunk", "layup", "free_throw"]

/-- Action-type filter for `defensive_highlights` (lines 434–437). -/
def defensive_types : List String := ["block", "steal", "rebound_defensive"]

/-- Action-type filter for `best_plays` (lines 438–441). -/
def best_plays_types : List String :=
  ["shot_3pt", "dunk", "assist", "steal", "block"]

/-- The queryset built by `create_highlight_video` before clip assembly
(lines 424–448): confidence filter, type filter by highlight type,
optional player filter, then `order_by('-confidence')` (modelled by a
stable sort on descending confidence). -/
def candidateActions (h : HighlightRow) (actions : List ActionRow) :
    List ActionRow :=
  let byConf := actions.filter (fun a => a.confidence ≥ h.min_confidence)
  let byType :=
    if h.highlight_type = "shooting_highlights" then
      byConf.filter (fun a => a.type ∈ shooting_types)
    else if h.highlight_type = "defensive_highlights" then
      byConf.filter (fun a => a.type ∈ defensive_types)
    else if h.highlight_type = "best_plays" then
      byConf.filter (fun a => a.type ∈ best_plays_types)
    else byConf
  let byPlayer :=
    match h.player with
    | none => byType
    | some pid => byType.filter (fun a => a.player = some pid)
  byPlayer.insertionSort (fun a b => b.confidence ≤ a.confidence)

/-- The clip-assembly loop of `create_highlight_video` (lines 452–471):
walk the candidates with a running `total_duration`; break once the total
has reached `max_duration`; clip bounds get a 1-second buffer clamped to
the video (`start = max(0, start_time - 1)`, `end = min(video_duration,
end_time + 1)`); a clip is added only when the new total stays within
`max_duration`.  Returns the selected clip lengths and the final total. -/
def selectClips (videoDur maxDur : ℚ) : List ActionRow → ℚ → List ℚ × ℚ
  | [], total => ([], total)
  | a :: rest, total =>
    if total ≥ maxDur then ([], total)
    else
      let s := max 0 (a.start_time - 1)
      let e := min videoDur (a.end_time + 1)
      let d := e - s
      if total + d ≤ maxDur then
        let r := selectClips videoDur maxDur rest (total + d)
        (d :: r.1, r.2)
      else
        selectClips videoDur maxDur rest total

/-- Clips and final total assembled for highlight `h` over video of
duration `videoDur`, starting from `total_duration = 0` (line 453). -/
def highlightClips (h : HighlightRow) (videoDur : ℚ)
    (actions : List ActionRow) : List ℚ × ℚ :=
  selectClips videoDur h.max_duration (candidateActions h actions) 0

/-- `create_highlight_video` (`core/tasks.py` lines 412–507).  On success,
when at least one clip was selected the concatenated file is written and
the row is updated with `duration := total_duration` and
`is_processing := False` (lines 473–488); with no clips the row is left
untouched.  The `except` branch (lines 501–507) stores the error in
`processing_error` and clears `is_processing`.  The returned dict's
`"status"` value is the second component; the task enqueues nothing. -/
def create_highlight_video (exc : Option String) (h : HighlightRow)
    (videoDur : ℚ) (actions : List ActionRow) : HighlightRow × String :=
  match exc with
  | none =>
      let r := highlightClips h videoDur actions
      if r.1 ≠ [] then
        ({ h with file_written := true
                  duration := some r.2
                  is_processing := false }, "completed")
      else (h, "completed")
  | some e =>
      ({ h with is_processing := false, processing_error := some e }, "error")

/-! ### Concrete rows used by witnesses -/

/-- A small relational state satisfying referential integrity: two videos,
a player, an action, a highlight and a stats row on each. -/
def sampleDb : Database :=
  { videos := [1, 2]
    players := [⟨10, 1⟩, ⟨20, 2⟩]
    actions := [⟨100, 1, some 10⟩, ⟨101, 2, none⟩]
    highlights := [⟨200, 1, some 10⟩, ⟨201, 2, some 20⟩]
    stats := [⟨300, 1, 10⟩, ⟨301, 2, 20⟩] }

/-- An auto-generated `best_plays` highlight row as created by
`auto_generate_highlights_task` (min confidence 0.8 is relaxed to 0.7 here;
any value works). -/
def sampleHighlight : HighlightRow :=
  { highlight_type := "best_plays", player := none, min_confidence := 7/10,
    max_duration := 60, file_written := false, duration := none,
    is_processing := true, processing_error := none }

/-- A detected dunk at seconds 5–8 with confidence 0.9. -/
def sampleAction : ActionRow :=
  { type := "dunk", player := some 10, start_time := 5, end_time := 8,
    confidence := 9/10 }

/-- A `Stats` row with every counter zero. -/
def sampleStatsZero : StatsRow :=
  { fga_2pt := 0, fgm_2pt := 0, fga_3pt := 0, fgm_3pt := 0, fta := 0, ftm := 0,
    assists := 0, rebounds := 0, offensive_rebounds := 0,
    defensive_rebounds := 0, steals := 0, blocks := 0, turnovers := 0,
    fouls := 0, points := 0, minutes_played := 0, plus_minus := 0 }

/-! ### Helper lemmas about the clip-selection loop -/

/-- The final `total_duration` of the clip loop is the entry total plus the
sum of the selected clip lengths. -/
lemma selectClips_snd_eq (videoDur maxDur : ℚ) (as : List ActionRow) :
    ∀ total : ℚ,
      (selectClips videoDur maxDur as total).2
        = total + ((selectClips videoDur maxDur as total).1).sum := by
  induction as with
  | nil => intro total; simp [selectClips]
  | cons a rest ih =>
    intro total
    simp only [selectClips]
    split_ifs with h1 h2
    · simp
    · simp only [List.sum_cons]
      rw [ih]
      ring
    · exact ih total

/-- If the running total is within `max_duration` on entry, it stays within
`max_duration`. -/
lemma selectClips_snd_le (videoDur maxDur : ℚ) (as : List ActionRow) :
    ∀ total : ℚ, total ≤ maxDur →
      (selectClips videoDur maxDur as total).2 ≤ maxDur := by
  induction as with
  | nil => intro total h; simpa [selectClips] using h
  | cons a rest ih =>
    intro total h
    simp only [selectClips]
    split_ifs with h1 h2
    · simpa using h
    · exact ih _ h2
    · exact ih _ h

/-- Whenever the loop selected at least one clip, the final total is within
`max_duration` (each addition is guarded by
`total_duration + clip_duration <= highlight.max_duration`). -/
lemma selectClips_fst_ne_nil_le (videoDur maxDur : ℚ) (as : List ActionRow) :
    ∀ total : ℚ, (selectClips videoDur maxDur as total).1 ≠ [] →
      (selectClips videoDur maxDur as total).2 ≤ maxDur := by
  induction as with
  | nil => intro total h; simp [selectClips] at h
  | cons a rest ih =>
    intro total h
    simp only [selectClips] at h ⊢
    split_ifs at h ⊢ with h1 h2
    · simp at h
    · exact selectClips_snd_le videoDur maxDur rest _ h2
    · exact ih total h

/-! ### Claim theorems -/

/-- **C1** (amended).  `Video.status` starts at `'uploaded'` and the
successful pipeline moves it through exactly
`processing → players_detected → ball_analyzed → actions_done →
highlights_created → done`, each label set by the named task; the failure
branch of every step except `auto_generate_highlights_task` sets the
absorbing status `'error'`, while `auto_generate_highlights_task`'s failure
branch leaves the status unchanged. -/
theorem video_status_progression :
    Video.default_status = "uploaded" ∧
    statusTrace { status := Video.default_status, error_message := none }
        pipelineChain
      = ["processing", "players_detected", "ball_analyzed", "actions_done",
         "highlights_created", "done"] ∧
    (∀ v e, (process_video_task (some e) v).video.status = "error") ∧
    (∀ v e, (detect_players_task (some e) v).video.status = "error") ∧
    (∀ v e, (analyze_ball_and_score_task (some e) v).video.status = "error") ∧
    (∀ v e, (detect_actions_with_mmaction (some e) v).video.status = "error") ∧
    (∀ v e, (calculate_stats_task (some e) v).video.status = "error") ∧
    (∀ v e, (auto_generate_highlights_task (some e) v).video.status = v.status) :=
  ⟨rfl, rfl, fun _ _ => rfl, fun _ _ => rfl, fun _ _ => rfl, fun _ _ => rfl,
   fun _ _ => rfl, fun _ _ => rfl⟩

/-- **C1** counterexample.  The claim says the failure branch of every step
sets `status='error'`; `auto_generate_highlights_task` (the step that sets
`'done'`) fails on a video in state `'highlights_created'` and the status
does not become `'error'`. -/
theorem video_status_error_unreachable_from_autogen :
    (auto_generate_highlights_task (some "highlight generation failed")
        { status := "highlights_created", error_message := none }).video.status
      ≠ "error" := by decide

/-- **C2** (amended).  When a task body raises, every pipeline task except
`auto_generate_highlights_task` writes the error into its database row
(`Video.error_message` with `status='error'`, or
`Highlight.processing_error` with `is_processing=False`), returns a dict
with `"status": "error"` and enqueues nothing;
`auto_generate_highlights_task` also returns the error dict and enqueues
nothing, but leaves its row completely untouched. -/
theorem task_failure_handling (v : VideoRow) (h : HighlightRow)
    (videoDur : ℚ) (actions : List ActionRow) (e : String) :
    process_video_task (some e) v =
      { video := { v with status := "error", error_message := some e }
        enqueued := [], ret_status := "error" } ∧
    detect_players_task (some e) v =
      { video := { v with status := "error"
                          error_message := some ("Player detection failed: " ++ e) }
        enqueued := [], ret_status := "error" } ∧
    analyze_ball_and_score_task (some e) v =
      { video := { v with status := "error"
                          error_message := some ("Ball analysis failed: " ++ e) }
        enqueued := [], ret_status := "error" } ∧
    detect_actions_with_mmaction (some e) v =
      { video := { v with status := "error"
                          error_message := some ("Action detection failed: " ++ e) }
        enqueued := [], ret_status := "error" } ∧
    calculate_stats_task (some e) v =
      { video := { v with status := "error"
                          error_message := some ("Stats calculation failed: " ++ e) }
        enqueued := [], ret_status := "error" } ∧
    create_highlight_video (some e) h videoDur actions =
      ({ h with is_processing := false, processing_error := some e }, "error") ∧
    auto_generate_highlights_task (some e) v =
      { video := v, enqueued := [], ret_status := "error" } :=
  ⟨rfl, rfl, rfl, rfl, rfl, rfl, rfl⟩

/-- **C2** counterexample.  `auto_generate_highlights_task`'s exception
handler persists nothing: after its body raises, `Video.error_message` is
still empty instead of holding the error string. -/
theorem task_failure_autogen_writes_nothing :
    (auto_generate_highlights_task (some "no space left on device")
        { status := "highlights_created", error_message := none }).video.error_message
      = none := by decide

/-- **C3** (confirmed).  On success each task enqueues exactly the next link
of the linear chain: `process_video_task → detect_players_task →
analyze_ball_and_score_task → detect_actions_with_mmaction →
calculate_stats_task → auto_generate_highlights_task →
create_highlight_video` (one enqueue per generated highlight, i.e. one per
entry of `highlight_types`), and `create_highlight_video` enqueues
nothing. -/
theorem pipeline_linear_chain (v : VideoRow) :
    (process_video_task none v).enqueued = [PTask.detect_players] ∧
    (detect_players_task none v).enqueued = [PTask.analyze_ball_and_score] ∧
    (analyze_ball_and_score_task none v).enqueued = [PTask.detect_actions] ∧
    (detect_actions_with_mmaction none v).enqueued = [PTask.calculate_stats] ∧
    (calculate_stats_task none v).enqueued = [PTask.auto_generate_highlights] ∧
    (auto_generate_highlights_task none v).enqueued
        = List.replicate highlight_types.length PTask.create_highlight ∧
    (runVideoTask PTask.create_highlight none v).enqueued = [] :=
  ⟨rfl, rfl, rfl, rfl, rfl, rfl, rfl⟩

/-- **C4** (confirmed).  `StatsCreateUpdateSerializer.validate` returns the
data unchanged exactly when made shots do not exceed attempts for all
three shot kinds (absent fields read as 0), and raises `ValidationError`
exactly when one of the three comparisons fails. -/
theorem stats_validate_made_le_attempts (d : StatsInput) :
    (StatsCreateUpdateSerializer.validate d = Except.ok d ↔
      d.fgm_2pt.getD 0 ≤ d.fga_2pt.getD 0 ∧
        d.fgm_3pt.getD 0 ≤ d.fga_3pt.getD 0 ∧ d.ftm.getD 0 ≤ d.fta.getD 0) ∧
    ((∃ msg, StatsCreateUpdateSerializer.validate d = Except.error msg) ↔
      d.fga_2pt.getD 0 < d.fgm_2pt.getD 0 ∨
        d.fga_3pt.getD 0 < d.fgm_3pt.getD 0 ∨ d.fta.getD 0 < d.ftm.getD 0) := by
  unfold StatsCreateUpdateSerializer.validate
  split_ifs with h1 h2 h3 <;> constructor <;> simp_all

/-- **C5** counterexample.  The claim says `ActionCreateSerializer.validate`
raises exactly when `start_time >= end_time`; on input
`start_time = 0, end_time = 31` it raises although `0 < 31` (the duration
check fires). -/
theorem action_validate_counterexample :
    (∃ msg, ActionCreateSerializer.validate 0 31 = Except.error msg) ∧
      ¬ ((0 : ℚ) ≥ 31) := by
  refine ⟨⟨"Action duration cannot exceed 30 seconds", ?_⟩, by norm_num⟩
  norm_num [ActionCreateSerializer.validate]

/-- **C5** (amended).  `ActionCreateSerializer.validate` raises the
"End time must be after start time" error whenever
`start_time >= end_time`, and on inputs whose duration is within the
30-second cap it raises exactly when `start_time >= end_time`. -/
theorem action_validate_end_after_start (s t : ℚ) :
    (s ≥ t → ActionCreateSerializer.validate s t =
        Except.error "End time must be after start time") ∧
    (t - s ≤ 30 →
      ((∃ msg, ActionCreateSerializer.validate s t = Except.error msg) ↔
        s ≥ t)) := by
  unfold ActionCreateSerializer.validate
  constructor
  · intro hge; rw [if_pos hge]
  · intro hd
    split_ifs with h1 h2
    · simp [h1]
    · exact absurd h2 (not_lt.mpr hd)
    · simp [h1]

/-- Witness for the amended C5 theorem at concrete inputs `(5, 5)` and
`(2, 10)`. -/
theorem action_validate_end_after_start_witness :
    ActionCreateSerializer.validate 5 5 =
        Except.error "End time must be after start time" ∧
      ((∃ msg, ActionCreateSerializer.validate 2 10 = Except.error msg) ↔
        (2 : ℚ) ≥ 10) :=
  ⟨(action_validate_end_after_start 5 5).1 (le_refl 5),
   (action_validate_end_after_start 2 10).2 (by norm_num)⟩

/-- **C6** (confirmed).  For inputs with `end_time > start_time`,
`ActionCreateSerializer.validate` raises exactly when
`end_time - start_time > 30`. -/
theorem action_validate_duration_cap (s t : ℚ) (h : s < t) :
    (∃ msg, ActionCreateSerializer.validate s t = Except.error msg) ↔
      t - s > 30 := by
  unfold ActionCreateSerializer.validate
  rw [if_neg (not_le.mpr h)]
  split_ifs with h2 <;> simp [h2]

/-- Witness for the C6 theorem at the concrete input `(0, 40)`. -/
theorem action_validate_duration_cap_witness :
    (∃ msg, ActionCreateSerializer.validate 0 40 = Except.error msg) ↔
      (40 : ℚ) - 0 > 30 :=
  action_validate_duration_cap 0 40 (by norm_num)

/-- **C7** (confirmed).  Deleting a video cascades: no surviving
`Player`/`Action`/`Highlight`/`Stats` row references the deleted video,
the video row itself is gone, and — starting from a referentially integral
database — the database is still integral afterwards, so no dangling
reference remains. -/
theorem video_delete_cascades (db : Database) (v : ℕ) (hdb : db.integral) :
    (∀ p ∈ (db.deleteVideo v).players, p.video ≠ v) ∧
    (∀ a ∈ (db.deleteVideo v).actions, a.video ≠ v) ∧
    (∀ h ∈ (db.deleteVideo v).highlights, h.video ≠ v) ∧
    (∀ s ∈ (db.deleteVideo v).stats, s.video ≠ v) ∧
    v ∉ (db.deleteVideo v).videos ∧
    (db.deleteVideo v).integral := by
  obtain ⟨hp, ha, hh, hs⟩ := hdb
  have survivors : ∀ pid : ℕ,
      (∃ p ∈ db.players, p.id = pid) →
      pid ∉ (db.players.filter (fun p => p.video = v)).map PlayerRec.id →
      ∃ p ∈ (db.deleteVideo v).players, p.id = pid := by
    intro pid ⟨p, hpmem, hpid⟩ hnd
    refine ⟨p, ?_, hpid⟩
    simp only [Database.deleteVideo, List.mem_filter, decide_eq_true_eq]
    refine ⟨hpmem, fun hpv => hnd ?_⟩
    simp only [List.mem_map]
    exact ⟨p, List.mem_filter.mpr ⟨hpmem, by simp [hpv]⟩, hpid⟩
  refine ⟨?_, ?_, ?_, ?_, ?_, ?_, ?_, ?_, ?_⟩
  · intro p hpm
    simp only [Database.deleteVideo, List.mem_filter, decide_eq_true_eq] at hpm
    exact hpm.2
  · intro a ham
    simp only [Database.deleteVideo, List.mem_filter, decide_eq_true_eq] at ham
    exact ham.2.1
  · intro h hhm
    simp only [Database.deleteVideo, List.mem_filter, decide_eq_true_eq] at hhm
    exact hhm.2.1
  · intro s hsm
    simp only [Database.deleteVideo, List.mem_filter, decide_eq_true_eq] at hsm
    exact hsm.2.1
  · intro hv
    simp only [Database.deleteVideo, List.mem_filter, decide_eq_true_eq] at hv
    exact hv.2 rfl
  · intro p hpm
    simp only [Database.deleteVideo, List.mem_filter, decide_eq_true_eq] at hpm ⊢
    exact ⟨hp p hpm.1, hpm.2⟩
  · intro a ham
    simp only [Database.deleteVideo, List.mem_filter, decide_eq_true_eq] at ham ⊢
    obtain ⟨hamem, hav, hap⟩ := ham
    refine ⟨⟨(ha a hamem).1, hav⟩, fun pid hpid => ?_⟩
    have hsur := survivors pid ((ha a hamem).2 pid hpid) (hap pid hpid)
    simpa only [Database.deleteVideo, List.mem_filter, decide_eq_true_eq]
      using hsur
  · intro h hhm
    simp only [Database.deleteVideo, List.mem_filter, decide_eq_true_eq] at hhm ⊢
    obtain ⟨hhmem, hhv, hhp⟩ := hhm
    refine ⟨⟨(hh h hhmem).1, hhv⟩, fun pid hpid => ?_⟩
    have hsur := survivors pid ((hh h hhmem).2 pid hpid) (hhp pid hpid)
    simpa only [Database.deleteVideo, List.mem_filter, decide_eq_true_eq]
      using hsur
  · intro s hsm
    simp only [Database.deleteVideo, List.mem_filter, decide_eq_true_eq] at hsm ⊢
    obtain ⟨hsmem, hsv, hsp⟩ := hsm
    refine ⟨⟨(hs s hsmem).1, hsv⟩, ?_⟩
    have hsur := survivors s.player (hs s hsmem).2 hsp
    simpa only [Database.deleteVideo, List.mem_filter, decide_eq_true_eq]
      using hsur

/-- Witness for the C7 theorem on the concrete database `sampleDb`,
deleting video 1. -/
theorem video_delete_cascades_witness :
    (∀ p ∈ (sampleDb.deleteVideo 1).players, p.video ≠ 1) ∧
    (∀ a ∈ (sampleDb.deleteVideo 1).actions, a.video ≠ 1) ∧
    (∀ h ∈ (sampleDb.deleteVideo 1).highlights, h.video ≠ 1) ∧
    (∀ s ∈ (sampleDb.deleteVideo 1).stats, s.video ≠ 1) ∧
    1 ∉ (sampleDb.deleteVideo 1).videos ∧
    (sampleDb.deleteVideo 1).integral :=
  video_delete_cascades sampleDb 1 (by unfold Database.integral; decide)

/-- **C8** (confirmed).  `Stats.save` recomputes
`points = 2*fgm_2pt + 3*fgm_3pt + ftm` and
`rebounds = offensive_rebounds + defensive_rebounds` before every write,
whatever those two fields held beforehand — so client-supplied `points` or
`rebounds` are always overwritten. -/
theorem stats_save_recomputes (s : StatsRow) :
    s.save.points = 2 * s.fgm_2pt + 3 * s.fgm_3pt + s.ftm ∧
    s.save.rebounds = s.offensive_rebounds + s.defensive_rebounds ∧
    ∀ p0 r0 : ℤ,
      StatsRow.save { s with points := p0, rebounds := r0 } = s.save := by
  refine ⟨?_, rfl, fun p0 r0 => rfl⟩
  simp only [StatsRow.save, StatsRow.calculate_points]
  ring

/-- **C9** (confirmed).  `create_highlight_video` considers candidates in
descending confidence order, adds a clip only when the new running total
stays within `highlight.max_duration`, and stops once the total reaches
it; so whenever at least one clip is selected, the stored
`highlight.duration` equals the sum of the selected clip durations and is
at most `highlight.max_duration`. -/
theorem highlight_duration_within_budget (h : HighlightRow) (videoDur : ℚ)
    (actions : List ActionRow)
    (hne : (highlightClips h videoDur actions).1 ≠ []) :
    (create_highlight_video none h videoDur actions).1.duration
        = some ((highlightClips h videoDur actions).1.sum) ∧
    (highlightClips h videoDur actions).1.sum ≤ h.max_duration := by
  have hsum := selectClips_snd_eq videoDur h.max_duration
    (candidateActions h actions) 0
  have hle := selectClips_fst_ne_nil_le videoDur h.max_duration
    (candidateActions h actions) 0 hne
  have h2 : (highlightClips h videoDur actions).2
      = (highlightClips h videoDur actions).1.sum := by
    simpa [highlightClips] using hsum
  constructor
  · simp only [create_highlight_video]
    rw [if_pos hne]
    simpa using h2
  · rw [← h2]
    simpa [highlightClips] using hle

/-- Witness for the C9 theorem: the `best_plays` highlight `sampleHighlight`
over a 100-second video containing the single action `sampleAction`
selects one 5-second clip (buffered 4s–9s), stores `duration = 5` and
stays within the 60-second budget. -/
theorem highlight_duration_within_budget_witness :
    (create_highlight_video none sampleHighlight 100 [sampleAction]).1.duration
        = some ((highlightClips sampleHighlight 100 [sampleAction]).1.sum) ∧
    (highlightClips sampleHighlight 100 [sampleAction]).1.sum
        ≤ sampleHighlight.max_duration :=
  highlight_duration_within_budget sampleHighlight 100 [sampleAction] (by
    norm_num [highlightClips, candidateActions, selectClips, sampleAction,
      sampleHighlight, List.insertionSort, List.orderedInsert,
      best_plays_types])

/-- **C10** (confirmed).  `Stats.calculate_shooting_percentages` is total:
it always yields all four keys `fg_pct`, `fg2_pct`, `fg3_pct`, `ft_pct`,
and whenever the corresponding attempts count is zero the guarded branch
returns 0 instead of dividing. -/
theorem shooting_percentages_zero_guard (s : StatsRow) :
    (s.fga_2pt = 0 → s.calculate_shooting_percentages.fg2_pct = 0) ∧
    (s.fga_3pt = 0 → s.calculate_shooting_percentages.fg3_pct = 0) ∧
    (s.fta = 0 → s.calculate_shooting_percentages.ft_pct = 0) ∧
    (s.fga_2pt + s.fga_3pt = 0 →
      s.calculate_shooting_percentages.fg_pct = 0) := by
  refine ⟨?_, ?_, ?_, ?_⟩ <;> intro h <;>
    norm_num [StatsRow.calculate_shooting_percentages, round1, h]

/-- Witness for the C10 theorem on the all-zero stats row: every percentage
is 0 rather than an error. -/
theorem shooting_percentages_zero_guard_witness :
    sampleStatsZero.calculate_shooting_percentages.fg2_pct = 0 ∧
    sampleStatsZero.calculate_shooting_percentages.fg3_pct = 0 ∧
    sampleStatsZero.calculate_shooting_percentages.ft_pct = 0 ∧
    sampleStatsZero.calculate_shooting_percentages.fg_pct = 0 :=
  ⟨(shooting_percentages_zero_guard sampleStatsZero).1 (by decide),
   (shooting_percentages_zero_guard sampleStatsZero).2.1 (by decide),
   (shooting_percentages_zero_guard sampleStatsZero).2.2.1 (by decide),
   (shooting_percentages_zero_guard sampleStatsZero).2.2.2 (by decide)⟩
